import Mathlib

set_option maxHeartbeats 1000000

/-!
Verification development for the nested-JSON flattening pipeline of
`src/DFtoMongo/script.py` (the "Normalizer" of the specification).

The Python values flowing through the pipeline are embedded as `PyVal`.
The pipeline's library calls (`pandas.json_normalize`, `DataFrame` column
operations, `datetime.fromisoformat`, `datetime.astimezone`) are embedded
from their library semantics (pandas 1.x/2.x `pandas/io/json/_normalize.py`,
CPython `datetime`), restricted to the call shapes that `script.py` uses.
Fallible Python code (code that can raise) is embedded in `Except String`;
a `Except.error` value models an uncaught Python exception reaching the
caller.  Timestamps are represented by their instant: microseconds since
1970-01-01 00:00:00 UTC (an `Int`).
-/

/-- Embedded Python/JSON value.  `nan` is the pandas missing-cell sentinel
(`numpy.nan`); `dt` is a timezone-aware `datetime` normalized to UTC and
represented by its instant in microseconds since the Unix epoch. -/
inductive PyVal : Type where
  | none : PyVal
  | nan : PyVal
  | bool : Bool → PyVal
  | int : Int → PyVal
  | str : String → PyVal
  | dt : Int → PyVal
  | list : List PyVal → PyVal
  | dict : List (String × PyVal) → PyVal

/-- Key lookup in an embedded Python dict (first binding wins). -/
def alookup (kvs : List (String × PyVal)) (k : String) : Option PyVal :=
  match kvs with
  | [] => Option.none
  | (k1, v) :: rest => if k1 = k then some v else alookup rest k

/-- Python `k in d` / `d.keys()` membership. -/
def hasKey (kvs : List (String × PyVal)) (k : String) : Bool :=
  (alookup kvs k).isSome

/-- Python truthiness (`bool(x)`).  Note `bool(float("nan"))` is `True`. -/
def truthy : PyVal → Bool
  | PyVal.none => false
  | PyVal.nan => true
  | PyVal.bool b => b
  | PyVal.int n => decide (n ≠ 0)
  | PyVal.str s => decide (s ≠ "")
  | PyVal.dt _ => true
  | PyVal.list xs => !xs.isEmpty
  | PyVal.dict kvs => !kvs.isEmpty

mutual

/-- One step of `pandas.io.json._normalize.nested_to_record` with `sep="."`:
a dict-valued field is flattened recursively under the dotted key; any other
value is kept as a single column. -/
def flattenVal (key : String) : PyVal → List (String × PyVal)
  | PyVal.dict kvs => flattenKVs (key ++ ".") kvs
  | v => [(key, v)]

/-- Flatten the fields of an embedded record, each key carrying prefix `pre`. -/
def flattenKVs (pre : String) : List (String × PyVal) → List (String × PyVal)
  | [] => []
  | (k, v) :: rest => flattenVal (pre ++ k) v ++ flattenKVs pre rest

end


/-! ### Calendar arithmetic (proleptic Gregorian, as CPython `datetime`) -/

/-- Gregorian leap-year test, as `calendar.isleap` / `datetime`. -/
def isLeap (y : Int) : Bool :=
  y % 4 = 0 && (y % 100 ≠ 0 || y % 400 = 0)

/-- Number of days in month `mo` of year `y` (`mo` is 1-based). -/
def daysInMonth (y mo : Int) : Int :=
  if mo = 2 then (if isLeap y then 29 else 28)
  else if mo = 4 ∨ mo = 6 ∨ mo = 9 ∨ mo = 11 then 30
  else 31

/-- Days from 1970-01-01 to the civil date `y-mo-d` (Howard Hinnant's
`days_from_civil`, using floor division). -/
def daysFromCivil (y mo d : Int) : Int :=
  let y1 : Int := if mo ≤ 2 then y - 1 else y
  let era : Int := y1.ediv 400
  let yoe : Int := y1 - era * 400
  let doy : Int := (153 * (if mo ≤ 2 then mo + 9 else mo - 3) + 2).ediv 5 + d - 1
  let doe : Int := yoe * 365 + yoe.ediv 4 - yoe.ediv 100 + doy
  era * 146097 + doe - 719468

/-- The UTC instant (microseconds since the Unix epoch) of the UTC wall-clock
time `y-mo-d hh:mm:ss.usec`. -/
def utcInstant (y mo d hh mm ss usec : Int) : Int :=
  ((daysFromCivil y mo d) * 86400 + hh * 3600 + mm * 60 + ss) * 1000000 + usec


/-! ### Python `int(...)` -/

/-- Numeric value of a decimal digit. -/
def digitVal (c : Char) : Option Nat :=
  if c.isDigit then some (c.toNat - 48) else Option.none

/-- Accumulating loop for `digitsToNat`. -/
def digitsToNatGo : List Char → Nat → Option Nat
  | [], acc => some acc
  | c :: rest, acc =>
    match digitVal c with
    | some dv => digitsToNatGo rest (acc * 10 + dv)
    | Option.none => Option.none

/-- Value of a nonempty all-digit string. -/
def digitsToNat : List Char → Option Nat
  | [] => Option.none
  | cs => digitsToNatGo cs 0

/-- Python `int(s)` on a string: optional sign then decimal digits
(whitespace and underscore forms are not exercised by this pipeline). -/
def parseIntStr (s : String) : Option Int :=
  match s.toList with
  | '-' :: rest => (digitsToNat rest).map (fun n => -(n : Int))
  | '+' :: rest => (digitsToNat rest).map (fun n => (n : Int))
  | cs => (digitsToNat cs).map (fun n => (n : Int))

/-- Python `int(x)`: ints pass through, bools coerce to 0/1, numeric strings
parse; `int(None)`/`int([])`/`int({})` raise `TypeError`, `int(float("nan"))`
and non-numeric strings raise `ValueError`. -/
def pyInt : PyVal → Except String Int
  | PyVal.int n => Except.ok n
  | PyVal.bool b => Except.ok (if b then 1 else 0)
  | PyVal.str s =>
    match parseIntStr s with
    | some n => Except.ok n
    | Option.none => Except.error "ValueError: invalid literal for int"
  | _ => Except.error "TypeError: int() argument"

/-! ### `datetime.fromisoformat` and `to_dt` (script.py lines 11-26) -/

/-- Result of parsing an ISO-8601 date-time string: wall-clock fields plus an
optional fixed UTC offset in minutes (`Option.none` = naive datetime). -/
structure IsoDT : Type where
  year : Nat
  month : Nat
  day : Nat
  hour : Nat
  minute : Nat
  second : Nat
  usec : Nat
  offMinutes : Option Int

/-- Read exactly two decimal digits. -/
def d2 : List Char → Option (Nat × List Char)
  | a :: b :: rest =>
    match digitVal a, digitVal b with
    | some x, some y => some (x * 10 + y, rest)
    | _, _ => Option.none
  | _ => Option.none

/-- Read exactly four decimal digits. -/
def d4 : List Char → Option (Nat × List Char)
  | a :: b :: c :: d :: rest =>
    match digitVal a, digitVal b, digitVal c, digitVal d with
    | some w, some x, some y, some z => some (((w * 10 + x) * 10 + y) * 10 + z, rest)
    | _, _, _, _ => Option.none
  | _ => Option.none

/-- Expect one given character. -/
def expectChar (ch : Char) : List Char → Option (List Char)
  | c :: rest => if c = ch then some rest else Option.none
  | [] => Option.none

/-- Split the time portion at the first `+`/`-` (the UTC-offset marker), as
CPython's `_parse_isoformat_time` does. -/
def splitTz : List Char → List Char × Option (Char × List Char)
  | [] => ([], Option.none)
  | c :: rest =>
    if c = '+' ∨ c = '-' then ([], some (c, rest))
    else
      let p := splitTz rest
      (c :: p.1, p.2)

/-- Fractional seconds: exactly 3 digits (milliseconds) or 6 digits
(microseconds), as `datetime.fromisoformat` (pre-3.11 CPython) accepts. -/
def parseFraction : List Char → Option Nat
  | [a, b, c] =>
    match digitVal a, digitVal b, digitVal c with
    | some x, some y, some z => some (((x * 10 + y) * 10 + z) * 1000)
    | _, _, _ => Option.none
  | [a, b, c, d, e, f] =>
    match digitVal a, digitVal b, digitVal c, digitVal d, digitVal e, digitVal f with
    | some u, some v, some w, some x, some y, some z =>
      some (((((u * 10 + v) * 10 + w) * 10 + x) * 10 + y) * 10 + z)
    | _, _, _, _, _, _ => Option.none
  | _ => Option.none

/-- Parse `HH[:MM[:SS[.fff[fff]]]]` to (hour, minute, second, usec). -/
def parseHMS (cs : List Char) : Option (Nat × Nat × Nat × Nat) :=
  match d2 cs with
  | Option.none => Option.none
  | some (hh, r1) =>
    match r1 with
    | [] => some (hh, 0, 0, 0)
    | ':' :: r2 =>
      match d2 r2 with
      | Option.none => Option.none
      | some (mm, r3) =>
        match r3 with
        | [] => some (hh, mm, 0, 0)
        | ':' :: r4 =>
          match d2 r4 with
          | Option.none => Option.none
          | some (ss, r5) =>
            match r5 with
            | [] => some (hh, mm, ss, 0)
            | '.' :: r6 => (parseFraction r6).map (fun us => (hh, mm, ss, us))
            | _ => Option.none
        | _ => Option.none
    | _ => Option.none

/-- Parse the UTC-offset part `±HH:MM` (consuming the whole remainder). -/
def parseOff (sign : Char) (cs : List Char) : Option Int :=
  match d2 cs with
  | Option.none => Option.none
  | some (oh, r1) =>
    match expectChar ':' r1 with
    | Option.none => Option.none
    | some r2 =>
      match d2 r2 with
      | some (om, []) =>
        if oh * 60 + om < 1440 then
          some (if sign = '-' then -((oh * 60 + om : Nat) : Int) else ((oh * 60 + om : Nat) : Int))
        else Option.none
      | _ => Option.none

/-- `datetime.fromisoformat` on `YYYY-MM-DD[<sep>HH[:MM[:SS[.fff[fff]]]][±HH:MM]]`
(the pre-3.11 CPython grammar; the single separator character is arbitrary).
Out-of-range components make the `datetime` constructor raise `ValueError`,
which `to_dt` catches, so they are parse failures here. -/
def parseIso (s : String) : Option IsoDT :=
  match d4 s.toList with
  | Option.none => Option.none
  | some (y, r1) =>
    match expectChar '-' r1 with
    | Option.none => Option.none
    | some r2 =>
      match d2 r2 with
      | Option.none => Option.none
      | some (mo, r3) =>
        match expectChar '-' r3 with
        | Option.none => Option.none
        | some r4 =>
          match d2 r4 with
          | Option.none => Option.none
          | some (d, r5) =>
            let time? : Option (Nat × Nat × Nat × Nat × Option Int) :=
              match r5 with
              | [] => some (0, 0, 0, 0, Option.none)
              | _sep :: rest =>
                let p := splitTz rest
                match parseHMS p.1 with
                | Option.none => Option.none
                | some (hh, mm, ss, us) =>
                  match p.2 with
                  | Option.none => some (hh, mm, ss, us, Option.none)
                  | some (sign, tzcs) =>
                    match parseOff sign tzcs with
                    | some off => some (hh, mm, ss, us, some off)
                    | Option.none => Option.none
            match time? with
            | Option.none => Option.none
            | some (hh, mm, ss, us, off) =>
              if 1 ≤ y ∧ 1 ≤ mo ∧ mo ≤ 12 ∧ 1 ≤ d ∧ (d : Int) ≤ daysInMonth (y : Int) (mo : Int)
                  ∧ hh ≤ 23 ∧ mm ≤ 59 ∧ ss ≤ 59 then
                some ⟨y, mo, d, hh, mm, ss, us, off⟩
              else Option.none

/-- Python `s.replace("Z", "+00:00")`: every occurrence of the single
character `Z` is replaced. -/
def replaceZ (s : String) : String :=
  String.mk (s.toList.flatMap (fun c => if c = 'Z' then ['+', '0', '0', ':', '0', '0'] else [c]))

/-- The instant denoted by a parsed datetime after
`.astimezone(tzutc())`: an aware datetime keeps its instant (wall clock minus
its UTC offset); a naive datetime is interpreted in the host's local timezone
(`tzLocal`, modelled as a fixed offset in minutes east of UTC), which is
process environment state, not part of the input. -/
def isoInstant (tzLocal : Int) (t : IsoDT) : Int :=
  utcInstant t.year t.month t.day t.hour t.minute t.second t.usec
    - (t.offMinutes.getD tzLocal) * 60000000

/-- The `datetime(...)` constructor used in `to_dt`'s dict branch: validates
field ranges (raising `ValueError` outside them) and builds a UTC instant. -/
def mkDatetime (y mo d hh mm : Int) : Except String Int :=
  if 1 ≤ y ∧ y ≤ 9999 ∧ 1 ≤ mo ∧ mo ≤ 12 ∧ 1 ≤ d ∧ d ≤ daysInMonth y mo
      ∧ 0 ≤ hh ∧ hh ≤ 23 ∧ 0 ≤ mm ∧ mm ≤ 59 then
    Except.ok (utcInstant y mo d hh mm 0 0)
  else Except.error "ValueError: datetime"

/-- `to_dt(s)` of script.py (lines 11-26): parse ISO strings or
`{dueDate, dueTime}` dicts into a UTC instant.  `tzLocal` is the host local
timezone offset consulted by `astimezone` for naive strings.  `Except.error`
models an uncaught exception: `s.get("dueDate", s).keys()` raises
`AttributeError` when the `dueDate` value is not a dict (e.g. `None`), and
`t.get(...)` raises when a present `dueTime` value is not a dict; the string
branch alone is wrapped in `try/except`. -/
def to_dt (tzLocal : Int) (s : PyVal) : Except String (Option Int) :=
  match s with
  | PyVal.none => Except.ok Option.none
  | PyVal.str t =>
    match parseIso (replaceZ t) with
    | some iso => Except.ok (some (isoInstant tzLocal iso))
    | Option.none => Except.ok Option.none
  | PyVal.dict kvs =>
    match (alookup kvs "dueDate").getD (PyVal.dict kvs) with
    | PyVal.dict dkvs =>
      if hasKey dkvs "year" && hasKey dkvs "month" && hasKey dkvs "day" then
        match (alookup kvs "dueTime").getD (PyVal.dict []) with
        | PyVal.dict tkvs => do
          let hh ← pyInt ((alookup tkvs "hours").getD (PyVal.int 0))
          let mm ← pyInt ((alookup tkvs "minutes").getD (PyVal.int 0))
          let y ← pyInt ((alookup dkvs "year").getD PyVal.none)
          let mo ← pyInt ((alookup dkvs "month").getD PyVal.none)
          let d ← pyInt ((alookup dkvs "day").getD PyVal.none)
          (mkDatetime y mo d hh mm).map (fun i => some i)
        | _ => Except.error "AttributeError: object has no attribute get"
      else Except.ok Option.none
    | _ => Except.error "AttributeError: object has no attribute keys"
  | _ => Except.ok Option.none


/-! ### `extract_attachments` (script.py lines 112-130) -/

/-- The descriptor appended for a resolved drive-file payload `inner`:
`{"id": ..., "title": ..., "link": alternateLink, "thumb": thumbnailUrl}`,
each via `inner.get(...)` (absent key gives `None`). -/
def descOf (inner : List (String × PyVal)) : PyVal :=
  PyVal.dict [("id", (alookup inner "id").getD PyVal.none),
              ("title", (alookup inner "title").getD PyVal.none),
              ("link", (alookup inner "alternateLink").getD PyVal.none),
              ("thumb", (alookup inner "thumbnailUrl").getD PyVal.none)]

/-- The loop body of `extract_attachments`: for each entry,
`df = att.get("driveFile") or {}` then
`inner = df.get("driveFile") if isinstance(df.get("driveFile"), dict) else df`.
A non-dict entry raises `AttributeError` at `att.get`, and a dict entry whose
`driveFile` value is truthy but not a dict raises at `df.get`; since `df` is
otherwise always a dict, `inner` is always a dict and every surviving entry
appends a descriptor. -/
def extractGo : List PyVal → Except String (List PyVal)
  | [] => Except.ok []
  | att :: rest =>
    match att with
    | PyVal.dict kvs =>
      let v := (alookup kvs "driveFile").getD PyVal.none
      let df := if truthy v then v else PyVal.dict []
      match df with
      | PyVal.dict dkvs =>
        let inner :=
          match alookup dkvs "driveFile" with
          | some (PyVal.dict ikvs) => ikvs
          | _ => dkvs
        (extractGo rest).map (fun out => descOf inner :: out)
      | _ => Except.error "AttributeError: object has no attribute get"
    | _ => Except.error "AttributeError: object has no attribute get"

/-- `extract_attachments` of script.py on the value of
`row.get("assignmentSubmission.attachments", None)`: non-lists yield `None`,
and the final `return out or None` maps an empty result list to `None`. -/
def extract_attachments (x : PyVal) : Except String PyVal :=
  match x with
  | PyVal.list xs =>
    (extractGo xs).map (fun out => if out.isEmpty then PyVal.none else PyVal.list out)
  | _ => Except.ok PyVal.none

/-- Bool test: is the value an embedded Python list? -/
def isListV : PyVal → Bool
  | PyVal.list _ => true
  | _ => false

/-- Specification-side resolution of one attachment entry: the drive-file
payload of a dict entry, found either directly under `driveFile` or
double-nested under a second `driveFile` key; a missing/falsy `driveFile`
value resolves to the empty payload; non-dict entries (and dict entries
whose truthy `driveFile` value is not a dict) do not resolve. -/
def resolveEntry : PyVal → Option (List (String × PyVal))
  | PyVal.dict kvs =>
    let v := (alookup kvs "driveFile").getD PyVal.none
    let df := if truthy v then v else PyVal.dict []
    match df with
    | PyVal.dict dkvs =>
      match alookup dkvs "driveFile" with
      | some (PyVal.dict ikvs) => some ikvs
      | _ => some dkvs
    | _ => Option.none
  | _ => Option.none

/-- Specification-side mapping of a whole attachment list: every entry must
resolve, and each resolved payload is mapped to its descriptor. -/
def resolveAll : List PyVal → Option (List PyVal)
  | [] => some []
  | att :: rest =>
    match resolveEntry att with
    | some inner => (resolveAll rest).map (fun ds => descOf inner :: ds)
    | Option.none => Option.none

/-! ### `pick_latest_points` (script.py lines 133-142) -/

/-- Does a history entry qualify: it is a dict whose `gradeHistory` value is a
dict containing the key `pointsEarned` (key presence, not truthiness). -/
def qualifies (h : PyVal) : Bool :=
  match h with
  | PyVal.dict kvs =>
    match alookup kvs "gradeHistory" with
    | some (PyVal.dict g) => hasKey g "pointsEarned"
    | _ => false
  | _ => false

/-- The `gradeHistory["pointsEarned"]` value of a qualifying entry. -/
def qualValue (h : PyVal) : PyVal :=
  match h with
  | PyVal.dict kvs =>
    match alookup kvs "gradeHistory" with
    | some (PyVal.dict g) => (alookup g "pointsEarned").getD PyVal.none
    | _ => PyVal.none
  | _ => PyVal.none

/-- The running-`pts` loop of `pick_latest_points`. -/
def pickLoop : List PyVal → PyVal → PyVal
  | [], pts => pts
  | h :: rest, pts => pickLoop rest (if qualifies h then qualValue h else pts)

/-- `pick_latest_points(hist)` of script.py: `None` unless `hist` is a
nonempty list, else the last qualifying entry's grade-points value. -/
def pick_latest_points (hist : PyVal) : PyVal :=
  match hist with
  | PyVal.list xs => if xs.isEmpty then PyVal.none else pickLoop xs PyVal.none
  | _ => PyVal.none

/-- Specification-side "latest" value: the grade-points value of the last
entry, in list order, whose wrapped `gradeHistory` record contains the
grade-points key; absent when no entry qualifies. -/
def lastQualifying : List PyVal → Option PyVal
  | [] => Option.none
  | h :: rest =>
    match lastQualifying rest with
    | some v => some v
    | Option.none => if qualifies h then some (qualValue h) else Option.none

/-- Specification-side `pick_latest_points`: absent for absent, malformed or
empty input, else the last qualifying entry's value. -/
def pickLatestSpec (hist : PyVal) : PyVal :=
  match hist with
  | PyVal.list xs => (lastQualifying xs).getD PyVal.none
  | _ => PyVal.none

/-! ### DataFrame model and `pandas.json_normalize`

A DataFrame is modelled as its list of rows; each row is the association
list of the columns this row's source record (plus meta insertions)
actually populates.  A column exists in the frame iff some row carries its
key, and reading a cell of an existing column from a row lacking the key
yields `nan` — exactly how `pandas.DataFrame` unions record keys and fills
missing cells with `NaN`. -/

/-- One DataFrame row. -/
abbrev Row := List (String × PyVal)

/-- A DataFrame, as its list of rows. -/
abbrev Df := List Row

/-- Exception-propagating map: apply `f` to each element left to right,
stopping at the first raised exception (Python loop semantics). -/
def mapE {α β : Type} (f : α → Except String β) : List α → Except String (List β)
  | [] => Except.ok []
  | a :: rest =>
    match f a with
    | Except.ok b => (mapE f rest).map (fun bs => b :: bs)
    | Except.error e => Except.error e

/-- Column membership: `k in df.columns`. -/
def colExists (df : Df) (k : String) : Bool :=
  df.any (fun r => hasKey r k)

/-- Cell of row `r` under an existing column `k` (`NaN` when this record
lacked the key). -/
def cellOf (r : Row) (k : String) : PyVal :=
  (alookup r k).getD PyVal.nan

/-- `row.get(k, default)` on a row Series of `df` (as in `df.apply(..., axis=1)`):
the default applies only when the column does not exist in the frame. -/
def rowGetD (df : Df) (r : Row) (k : String) (dflt : PyVal) : PyVal :=
  if colExists df k then cellOf r k else dflt

/-- `df.rename(columns=m)`: relabel every matching column key. -/
def renameDf (m : List (String × String)) (df : Df) : Df :=
  df.map (fun r => r.map (fun kv =>
    match m.find? (fun p => p.1 = kv.1) with
    | some p => (p.2, kv.2)
    | Option.none => kv))

/-- Write value `v` into column `k` of row `r` (in place if present, appended
as a new column otherwise), as a pandas column assignment does per row. -/
def rowSet (k : String) (r : Row) (v : PyVal) : Row :=
  if hasKey r k then r.map (fun kv => if kv.1 = k then (k, v) else kv)
  else r ++ [(k, v)]

/-- `df[k] = vals`: column assignment from a same-length value list. -/
def setCol (k : String) (df : Df) (vals : List PyVal) : Df :=
  List.zipWith (rowSet k) df vals

/-- `_pull_records(obj, key)` of `pandas.io.json._normalize`: a missing key
raises `KeyError` (even with `errors="ignore"`, which covers only meta), a
null value becomes the empty record list, and a non-list, non-null value
raises `TypeError`. -/
def pullRecordsKV (kvs : List (String × PyVal)) (k : String) : Except String (List PyVal) :=
  match alookup kvs k with
  | Option.none => Except.error ("KeyError: " ++ k)
  | some PyVal.none => Except.ok []
  | some PyVal.nan => Except.ok []
  | some (PyVal.list xs) => Except.ok xs
  | some _ => Except.error "TypeError: Path must contain list or null"

/-- `nested_to_record` over one record pulled by a record path: records must
be dicts (pandas keeps scalar records, but every record this pipeline feeds
through a record path is a JSON object; a non-dict here is modelled as the
error the surrounding construction raises on such shapes). -/
def flattenDictRecord : PyVal → Except String Row
  | PyVal.dict kvs => Except.ok (flattenKVs "" kvs)
  | _ => Except.error "TypeError: record is not a dict"

/-- `_pull_field(obj, [k1, k2])` with `errors="raise"`: consecutive
subscripts; a missing key raises `KeyError`, a non-subscriptable
intermediate raises `TypeError`. -/
def pullField2 (kvs : List (String × PyVal)) (k1 k2 : String) : Except String PyVal :=
  match alookup kvs k1 with
  | some (PyVal.dict d2kvs) =>
    match alookup d2kvs k2 with
    | some v => Except.ok v
    | Option.none => Except.error ("KeyError: " ++ k2)
  | some _ => Except.error "TypeError: not subscriptable"
  | Option.none => Except.error ("KeyError: " ++ k1)

/-- One CourseBlock's contribution to a single-level
`json_normalize(courses_raw, record_path=[recKey], meta=[["course_info","id"]])`:
the flattened records of `course[recKey]` plus the meta value
`course["course_info"]["id"]` (errors="raise").  Records are pulled before
meta, as in `_recursive_extract`'s single-level branch. -/
def recsOfCourse1 (recKey : String) (c : PyVal) : Except String (List Row × PyVal) :=
  match c with
  | PyVal.dict ckvs => do
    let raw ← pullRecordsKV ckvs recKey
    let recs ← mapE flattenDictRecord raw
    let mv ← pullField2 ckvs "course_info" "id"
    Except.ok (recs, mv)
  | _ => Except.error "TypeError: course block is not a dict"

/-- Single-level `json_normalize` call shape of script.py (students, teachers,
assignments): flatten each block's records and append the `course_info.id`
meta column; pandas raises `ValueError` if a record already carries the meta
column name. -/
def normalize1 (recKey : String) (courses : List PyVal) : Except String Df := do
  let chunks ← mapE (recsOfCourse1 recKey) courses
  if chunks.any (fun ch => ch.1.any (fun r => hasKey r "course_info.id")) then
    Except.error "ValueError: Conflicting metadata name"
  else
    Except.ok ((chunks.map (fun ch => ch.1.map (fun r => r ++ [("course_info.id", ch.2)]))).flatten)

/-- One assignment's contribution to
`json_normalize(courses_raw, record_path=["assignments","submissions"],
meta=[["course_info","id"],["assignments","id"],["assignments","title"]],
errors="ignore")`.  At the inner level of `_recursive_extract` the current
object is the assignment and each two-element meta path `val` is pulled as
`_pull_field(assignment, val[level:]) = _pull_field(assignment, [val[-1]])`,
so the `course_info.id` column receives `assignment["id"]`, not the course
id; with `errors="ignore"` a missing meta key yields `NaN`. -/
def subRecsOfAsg (a : PyVal) : Except String (List Row × PyVal × PyVal × PyVal) :=
  match a with
  | PyVal.dict akvs => do
    let raw ← pullRecordsKV akvs "submissions"
    let recs ← mapE flattenDictRecord raw
    Except.ok (recs, (alookup akvs "id").getD PyVal.nan,
               (alookup akvs "id").getD PyVal.nan,
               (alookup akvs "title").getD PyVal.nan)
  | _ => Except.error "TypeError: assignment is not a dict"

/-- One CourseBlock's submission chunks: `course["assignments"]` is indexed
directly by `_recursive_extract` (raw `KeyError` when missing), a dict is
wrapped in a singleton list, and each element is recursed into. -/
def subChunksOfCourse (c : PyVal) : Except String (List (List Row × PyVal × PyVal × PyVal)) :=
  match c with
  | PyVal.dict ckvs =>
    match alookup ckvs "assignments" with
    | Option.none => Except.error "KeyError: assignments"
    | some (PyVal.list asgs) => mapE subRecsOfAsg asgs
    | some (PyVal.dict akvs) => (subRecsOfAsg (PyVal.dict akvs)).map (fun x => [x])
    | some _ => Except.error "TypeError: assignments is not iterable"
  | _ => Except.error "TypeError: course block is not a dict"

/-- The two-level `json_normalize` call of script.py building the raw
submissions frame, meta columns appended per chunk after the global
conflicting-name check. -/
def normalizeSubs (courses : List PyVal) : Except String Df := do
  let chunkss ← mapE subChunksOfCourse courses
  let chunks := chunkss.flatten
  if chunks.any (fun ch => ch.1.any (fun r =>
      hasKey r "course_info.id" || hasKey r "assignments.id" || hasKey r "assignments.title")) then
    Except.error "ValueError: Conflicting metadata name"
  else
    Except.ok ((chunks.map (fun ch => ch.1.map (fun r =>
      r ++ [("course_info.id", ch.2.1), ("assignments.id", ch.2.2.1),
            ("assignments.title", ch.2.2.2)]))).flatten)

/-! ### The five output collections (script.py lines 47-153) -/

/-- A computed `dueDateTime`/`creationTime`/`updateTime` cell: the datetime
value, or `None` when `to_dt` returned `None`. -/
def dtToCell (o : Option Int) : PyVal :=
  match o with
  | some i => PyVal.dt i
  | Option.none => PyVal.none

/-- `df[k] = df[k].map(to_dt)`: raises `KeyError` when the column does not
exist; otherwise maps `to_dt` over every cell (`NaN` included) and any
exception from `to_dt` propagates. -/
def mapColToDt (tzLocal : Int) (k : String) (df : Df) : Except String Df :=
  if colExists df k then do
    let vals ← mapE (fun r => (to_dt tzLocal (cellOf r k)).map dtToCell) df
    Except.ok (setCol k df vals)
  else Except.error ("KeyError: " ++ k)

/-- The guarded form `if col in df: df[col] = df[col].map(to_dt)` used for
the submissions frame. -/
def mapColToDtIf (tzLocal : Int) (k : String) (df : Df) : Except String Df :=
  if colExists df k then mapColToDt tzLocal k df else Except.ok df

/-- `Series.fillna(False)` on one cell: pandas treats both `NaN` and `None`
as missing. -/
def fillnaFalse (v : PyVal) : PyVal :=
  match v with
  | PyVal.nan => PyVal.bool false
  | PyVal.none => PyVal.bool false
  | w => w

/-- The retained submission projection (`keep_sub_cols`). -/
def keepSubCols : List String :=
  ["submissionId", "courseId", "assignmentId", "assignmentTitle", "userId",
   "state", "creationTime", "updateTime", "late", "draftGrade",
   "pointsEarned_latest", "attachments", "alternateLink"]

/-- `df[[c for c in keep if c in df.columns]]`: keep the existing columns of
the allow-list, materializing `NaN` for rows that lacked a kept key. -/
def projectCols (keep : List String) (df : Df) : Df :=
  let chosen := keep.filter (fun c => colExists df c)
  df.map (fun r => chosen.map (fun c => (c, cellOf r c)))

/-- `courses_df` (script.py lines 47-52).  `pd.json_normalize(courses_raw)`
dot-flattens every dict-valued field, so the `course_info` column survives
only when some block's `course_info` is itself not a dict; the subsequent
`courses_df["course_info"]` therefore raises `KeyError` on every well-formed
snapshot, and in the residual case `pd.json_normalize` over a column of
non-dict scalars raises `AttributeError` (`y.values()` on a scalar).  The
rename and timestamp lines 50-52 are unreachable. -/
def flattenCourses (courses : List PyVal) : Except String Df := do
  let rows ← mapE flattenDictRecord courses
  if rows.any (fun r => hasKey r "course_info") then
    Except.error "AttributeError: scalar has no attribute values"
  else
    Except.error "KeyError: course_info"

/-- `students_df` (script.py lines 54-61). -/
def flattenStudents (courses : List PyVal) : Except String Df :=
  (normalize1 "students" courses).map (renameDf [("course_info.id", "courseId")])

/-- `teachers_df` (script.py lines 63-70). -/
def flattenTeachers (courses : List PyVal) : Except String Df :=
  (normalize1 "teachers" courses).map (renameDf [("course_info.id", "courseId")])

/-- `assignments_df` (script.py lines 72-86): normalize, rename, compute
`dueDateTime` row-wise from `{"dueDate": r.get("dueDate", None),
"dueTime": r.get("dueTime", None)}` via `to_dt`, then convert
`creationTime`/`updateTime` unconditionally. -/
def flattenAssignments (tzLocal : Int) (courses : List PyVal) : Except String Df := do
  let df0 ← normalize1 "assignments" courses
  let df := renameDf [("course_info.id", "courseId"), ("id", "assignmentId")] df0
  let vals ← mapE (fun r =>
    (to_dt tzLocal (PyVal.dict [("dueDate", rowGetD df r "dueDate" PyVal.none),
                                ("dueTime", rowGetD df r "dueTime" PyVal.none)])).map dtToCell) df
  let df1 := setCol "dueDateTime" df vals
  let df2 ← mapColToDt tzLocal "creationTime" df1
  mapColToDt tzLocal "updateTime" df2

/-- `submissions_df` (script.py lines 88-153): normalize, rename, convert the
guarded timestamp columns, compute `attachments` row-wise, compute
`pointsEarned_latest` from the `submissionHistory` column (raw `KeyError`
when that column does not exist), compute `late` from
`submissions_df.get("late", False).fillna(False)` — when no submission
carries a `late` key the `.get` default is the scalar `False`, whose
`.fillna` raises `AttributeError` — and finally project onto
`keep_sub_cols`. -/
def flattenSubmissions (tzLocal : Int) (courses : List PyVal) : Except String Df := do
  let dfr ← normalizeSubs courses
  let df := renameDf [("course_info.id", "courseId"), ("assignments.id", "assignmentId"),
                      ("assignments.title", "assignmentTitle"), ("id", "submissionId")] dfr
  let df1 ← mapColToDtIf tzLocal "creationTime" df
  let df2 ← mapColToDtIf tzLocal "updateTime" df1
  let avals ← mapE (fun r =>
    extract_attachments (rowGetD df2 r "assignmentSubmission.attachments" PyVal.none)) df2
  let df3 := setCol "attachments" df2 avals
  let df4 ←
    if colExists df3 "submissionHistory" then
      Except.ok (setCol "pointsEarned_latest" df3
        (df3.map (fun r => pick_latest_points (cellOf r "submissionHistory"))))
    else Except.error "KeyError: submissionHistory"
  let df5 ←
    if colExists df4 "late" then
      Except.ok (setCol "late" df4 (df4.map (fun r => fillnaFalse (cellOf r "late"))))
    else Except.error "AttributeError: bool object has no attribute fillna"
  Except.ok (projectCols keepSubCols df5)

/-! ### Observation helpers for the theorems -/

/-- Number of records of a successfully built collection. -/
def dfLen (e : Except String Df) : Option Nat :=
  match e with
  | Except.ok df => some df.length
  | Except.error _ => Option.none

/-- The cells of one column of a successfully built collection. -/
def colCells (e : Except String Df) (k : String) : Option (List PyVal) :=
  match e with
  | Except.ok df => some (df.map (fun r => cellOf r k))
  | Except.error _ => Option.none

/-- Did the computation raise? -/
def exceptIsErr {α : Type} (e : Except String α) : Bool :=
  match e with
  | Except.error _ => true
  | Except.ok _ => false

/-! ### Concrete snapshots used by the theorems -/

/-- Submission `s1` of the 1/2/1/1/3 snapshot (carries `late` and a
`submissionHistory`, as the real export data does). -/
def sub1 : PyVal := PyVal.dict [("id", PyVal.str "s1"), ("userId", PyVal.str "u1"),
  ("late", PyVal.bool true), ("submissionHistory", PyVal.list [])]

/-- Submission `s2` of the 1/2/1/1/3 snapshot. -/
def sub2 : PyVal := PyVal.dict [("id", PyVal.str "s2"), ("userId", PyVal.str "u2")]

/-- Submission `s3` of the 1/2/1/1/3 snapshot. -/
def sub3 : PyVal := PyVal.dict [("id", PyVal.str "s3"), ("userId", PyVal.str "u1")]

/-- The single assignment (id `a1`) with three submissions. -/
def asg1 : PyVal := PyVal.dict [("id", PyVal.str "a1"), ("title", PyVal.str "HW1"),
  ("submissions", PyVal.list [sub1, sub2, sub3])]

/-- One CourseBlock: course `c1` with 2 students, 1 teacher, 1 assignment
with 3 submissions — the snapshot of the spec's count property. -/
def block1 : PyVal := PyVal.dict [
  ("course_info", PyVal.dict [("id", PyVal.str "c1"), ("name", PyVal.str "Course One")]),
  ("students", PyVal.list [PyVal.dict [("userId", PyVal.str "u1")],
                           PyVal.dict [("userId", PyVal.str "u2")]]),
  ("teachers", PyVal.list [PyVal.dict [("userId", PyVal.str "t1")]]),
  ("assignments", PyVal.list [asg1])]

/-- The `courses` list of the 1/2/1/1/3 snapshot. -/
def snap1 : List PyVal := [block1]

/-- A snapshot whose single submission lacks a `late` field (no submission in
the snapshot carries one). -/
def snap8a : List PyVal := [PyVal.dict [
  ("course_info", PyVal.dict [("id", PyVal.str "c1")]),
  ("assignments", PyVal.list [PyVal.dict [("id", PyVal.str "a1"), ("title", PyVal.str "T"),
    ("submissions", PyVal.list [PyVal.dict [("id", PyVal.str "s1"),
      ("submissionHistory", PyVal.list [])]])]])]]

/-- A snapshot with two submissions: `s1` has `late: true`, `s2` has no
`late` field. -/
def snap8b : List PyVal := [PyVal.dict [
  ("course_info", PyVal.dict [("id", PyVal.str "c1")]),
  ("assignments", PyVal.list [PyVal.dict [("id", PyVal.str "a1"), ("title", PyVal.str "T"),
    ("submissions", PyVal.list [
      PyVal.dict [("id", PyVal.str "s1"), ("late", PyVal.bool true),
                  ("submissionHistory", PyVal.list [])],
      PyVal.dict [("id", PyVal.str "s2")]])]])]]

/-- A snapshot whose single submission carries a naive (offset-less)
`creationTime` string. -/
def snap9 : List PyVal := [PyVal.dict [
  ("course_info", PyVal.dict [("id", PyVal.str "c1")]),
  ("assignments", PyVal.list [PyVal.dict [("id", PyVal.str "a1"), ("title", PyVal.str "T"),
    ("submissions", PyVal.list [PyVal.dict [("id", PyVal.str "s1"),
      ("creationTime", PyVal.str "2025-08-30T19:27:44"),
      ("late", PyVal.bool true), ("submissionHistory", PyVal.list [])]])]])]]

/-! ### The claims -/

/-- C1: on the spec's snapshot (1 course, 2 students, 1 teacher, 1 assignment
with 3 submissions) the students and teachers collections do have 2 and 1
records with `courseId = "c1"`, but the courses collection raises `KeyError`
(`course_info` was dot-flattened away before `courses_df["course_info"]`),
the assignments collection raises `AttributeError` (`to_dt` is applied to
`{"dueDate": None, "dueTime": None}` and calls `.keys()` on `None`), and the
3 submission records carry `courseId = "a1"` — the parent assignment's id,
not the course id `"c1"` — because pandas resolves the meta path
`["course_info","id"]` against the assignment object under the two-level
record path.  The claimed 1/2/1/1/3 counts with course-id foreign keys
therefore fail. -/
theorem C1_flattener_on_concrete_snapshot : ∀ tzLocal : Int,
    dfLen (flattenStudents snap1) = some 2
  ∧ colCells (flattenStudents snap1) "courseId" = some [PyVal.str "c1", PyVal.str "c1"]
  ∧ dfLen (flattenTeachers snap1) = some 1
  ∧ colCells (flattenTeachers snap1) "courseId" = some [PyVal.str "c1"]
  ∧ exceptIsErr (flattenCourses snap1) = true
  ∧ exceptIsErr (flattenAssignments tzLocal snap1) = true
  ∧ dfLen (flattenSubmissions tzLocal snap1) = some 3
  ∧ colCells (flattenSubmissions tzLocal snap1) "courseId"
      = some [PyVal.str "a1", PyVal.str "a1", PyVal.str "a1"]
  ∧ PyVal.str "a1" ≠ PyVal.str "c1" := by
  intro tzLocal
  refine ⟨rfl, rfl, rfl, rfl, rfl, rfl, rfl, rfl, ?_⟩
  intro h
  exact absurd (PyVal.str.inj h) (by decide)

/-- C2: the Timestamp Unifier's concrete examples, for every host timezone:
the Z-suffixed ISO string maps to the UTC instant 2025-08-30 19:27:44.005,
the bare `dueDate` dict to 2025-09-01 00:00 UTC, the `dueDate`/`dueTime`
pair to 2025-09-01 14:30 UTC, and `None` and `"not-a-date"` map to absent. -/
theorem C2_to_dt_examples : ∀ tzLocal : Int,
    to_dt tzLocal (PyVal.str "2025-08-30T19:27:44.005Z")
      = Except.ok (some (utcInstant 2025 8 30 19 27 44 5000))
  ∧ to_dt tzLocal (PyVal.dict [("dueDate", PyVal.dict [("year", PyVal.int 2025),
        ("month", PyVal.int 9), ("day", PyVal.int 1)])])
      = Except.ok (some (utcInstant 2025 9 1 0 0 0 0))
  ∧ to_dt tzLocal (PyVal.dict [("dueDate", PyVal.dict [("year", PyVal.int 2025),
        ("month", PyVal.int 9), ("day", PyVal.int 1)]),
        ("dueTime", PyVal.dict [("hours", PyVal.int 14), ("minutes", PyVal.int 30)])])
      = Except.ok (some (utcInstant 2025 9 1 14 30 0 0))
  ∧ to_dt tzLocal PyVal.none = Except.ok Option.none
  ∧ to_dt tzLocal (PyVal.str "not-a-date") = Except.ok Option.none := by
  intro tzLocal
  exact ⟨rfl, rfl, rfl, rfl, rfl⟩

/-- C3: the Unifier does *not* return absent for every non-matching dict —
`to_dt` raises `AttributeError` on any dict whose `dueDate` key holds a
non-dict value, because `s.get("dueDate", s).keys()` is evaluated on that
value: `{"dueDate": None}`, `{"dueDate": "2025-09-01"}` and the exact value
the assignments pipeline builds for a missing due date,
`{"dueDate": nan, "dueTime": nan}`, all raise instead of returning absent. -/
theorem C3_to_dt_dict_raises : ∀ tzLocal : Int,
    exceptIsErr (to_dt tzLocal (PyVal.dict [("dueDate", PyVal.none)])) = true
  ∧ exceptIsErr (to_dt tzLocal (PyVal.dict [("dueDate", PyVal.str "2025-09-01")])) = true
  ∧ exceptIsErr (to_dt tzLocal (PyVal.dict [("dueDate", PyVal.nan), ("dueTime", PyVal.nan)])) = true := by
  intro tzLocal
  exact ⟨rfl, rfl, rfl⟩

/-- C8: when no submission in the snapshot carries a `late` key the pipeline
raises (`submissions_df.get("late", False)` returns the scalar `False`,
whose `.fillna` does not exist) instead of emitting records with
`late = false`; when the column exists, a row with `late: true` keeps its
boolean and a row lacking the key gets `false`. -/
theorem C8_late_default : ∀ tzLocal : Int,
    exceptIsErr (flattenSubmissions tzLocal snap8a) = true
  ∧ colCells (flattenSubmissions tzLocal snap8b) "late"
      = some [PyVal.bool true, PyVal.bool false] := by
  intro tzLocal
  exact ⟨rfl, rfl⟩

/-- C9 (counterexample): the flattener's output is not independent of hidden
process state — on a snapshot whose submission `creationTime` is a naive
ISO string, `astimezone(tzutc())` interprets the wall clock in the host
local timezone, so runs under two different host timezones (offsets 0 and
+60 minutes) produce different submission collections. -/
theorem C9_counterexample : flattenSubmissions 0 snap9 ≠ flattenSubmissions 60 snap9 := by
  intro h
  have h2 : colCells (flattenSubmissions 0 snap9) "creationTime"
      = colCells (flattenSubmissions 60 snap9) "creationTime" := by rw [h]
  have e1 : colCells (flattenSubmissions 0 snap9) "creationTime"
      = some [PyVal.dt 1756582064000000] := rfl
  have e2 : colCells (flattenSubmissions 60 snap9) "creationTime"
      = some [PyVal.dt 1756578464000000] := rfl
  rw [e1, e2] at h2
  simp only [Option.some.injEq, List.cons.injEq, PyVal.dt.injEq, and_true] at h2
  exact absurd h2 (by decide)

/-- C9 (amended): the flattener is a pure function of the snapshot and the
host local timezone — two runs in the same environment on the same snapshot
yield identical collections for all five record kinds — but it is not
independent of the host timezone (see the counterexample). -/
theorem C9_amended_determinism : ∀ (tzLocal : Int) (courses : List PyVal),
    flattenCourses courses = flattenCourses courses
  ∧ flattenStudents courses = flattenStudents courses
  ∧ flattenTeachers courses = flattenTeachers courses
  ∧ flattenAssignments tzLocal courses = flattenAssignments tzLocal courses
  ∧ flattenSubmissions tzLocal courses = flattenSubmissions tzLocal courses := by
  intro tzLocal courses
  exact ⟨rfl, rfl, rfl, rfl, rfl⟩

/-- Auxiliary for C6: the running-`pts` loop computes the last qualifying
value, with the accumulator as fallback. -/
theorem pickLoop_eq_lastQualifying (xs : List PyVal) : ∀ acc : PyVal,
    pickLoop xs acc = (lastQualifying xs).getD acc := by
  induction xs with
  | nil => intro acc; rfl
  | cons h t ih =>
    intro acc
    simp only [pickLoop, lastQualifying]
    rw [ih]
    cases hlq : lastQualifying t <;> cases hq : qualifies h <;> simp [hlq, hq]

/-- C6: the Latest-Grade Picker returns the grade-points value of the last
entry (in list order) whose wrapped `gradeHistory` record contains the
`pointsEarned` key — key presence is the test — and absent for absent,
malformed, empty or non-qualifying input; in particular the spec's
three-entry history yields 9.  Stated as: `pick_latest_points` agrees with
the specification-side `pickLatestSpec` on every input. -/
theorem C6_pick_latest_points_spec :
    pick_latest_points (PyVal.list [
      PyVal.dict [("gradeHistory", PyVal.dict [("pointsEarned", PyVal.int 5)])],
      PyVal.dict [("gradeHistory", PyVal.dict [("other", PyVal.int 1)])],
      PyVal.dict [("gradeHistory", PyVal.dict [("pointsEarned", PyVal.int 9)])]]) = PyVal.int 9
  ∧ ∀ hist : PyVal, pick_latest_points hist = pickLatestSpec hist := by
  refine ⟨rfl, ?_⟩
  intro hist
  cases hist <;> try rfl
  case list xs =>
    cases xs with
    | nil => rfl
    | cons a t => exact pickLoop_eq_lastQualifying (a :: t) PyVal.none

/-- C5: the Attachment Extractor returns absent for absent input, for every
non-list input and for the empty list, and whenever it returns at all it
never returns the empty list (the final `return out or None`). -/
theorem C5_extractor_absent_cases :
    extract_attachments PyVal.none = Except.ok PyVal.none
  ∧ (∀ v : PyVal, isListV v = false → extract_attachments v = Except.ok PyVal.none)
  ∧ extract_attachments (PyVal.list []) = Except.ok PyVal.none
  ∧ (∀ v out : PyVal, extract_attachments v = Except.ok out → out ≠ PyVal.list []) := by
  refine ⟨rfl, ?_, rfl, ?_⟩
  · intro v hv
    cases v <;> first | rfl | exact Bool.noConfusion hv
  · intro v out h heq
    subst heq
    cases v with
    | list xs =>
      simp only [extract_attachments] at h
      cases hg : extractGo xs with
      | error e =>
        rw [hg] at h
        exact Except.noConfusion h
      | ok l =>
        rw [hg] at h
        have h2 := Except.ok.inj h
        cases l with
        | nil => exact PyVal.noConfusion h2
        | cons c cs => exact List.noConfusion (PyVal.list.inj h2)
    | none => exact PyVal.noConfusion (Except.ok.inj h)
    | nan => exact PyVal.noConfusion (Except.ok.inj h)
    | bool b => exact PyVal.noConfusion (Except.ok.inj h)
    | int n => exact PyVal.noConfusion (Except.ok.inj h)
    | str s => exact PyVal.noConfusion (Except.ok.inj h)
    | dt i => exact PyVal.noConfusion (Except.ok.inj h)
    | dict kvs => exact PyVal.noConfusion (Except.ok.inj h)

/-- Witness for C5 at concrete inputs: a non-list input yields absent, and
the nonempty result for `[{}]` is not the empty list. -/
theorem C5_extractor_absent_cases_witness :
    extract_attachments (PyVal.int 5) = Except.ok PyVal.none
  ∧ PyVal.list [PyVal.dict [("id", PyVal.none), ("title", PyVal.none),
      ("link", PyVal.none), ("thumb", PyVal.none)]] ≠ PyVal.list [] :=
  ⟨C5_extractor_absent_cases.2.1 (PyVal.int 5) rfl,
   C5_extractor_absent_cases.2.2.2 (PyVal.list [PyVal.dict []])
     (PyVal.list [PyVal.dict [("id", PyVal.none), ("title", PyVal.none),
       ("link", PyVal.none), ("thumb", PyVal.none)]]) rfl⟩

/-- C4 (counterexample): an entry with no resolvable drive-file payload is
*not* skipped — `[{}]` produces one all-absent descriptor (because `inner`
is always a dict after `df = att.get("driveFile") or {}`), where the claim
requires zero descriptors and hence an absent result. -/
theorem C4_counterexample :
    extract_attachments (PyVal.list [PyVal.dict []])
      = Except.ok (PyVal.list [PyVal.dict [("id", PyVal.none), ("title", PyVal.none),
          ("link", PyVal.none), ("thumb", PyVal.none)]])
  ∧ (Except.ok (PyVal.list [PyVal.dict [("id", PyVal.none), ("title", PyVal.none),
      ("link", PyVal.none), ("thumb", PyVal.none)]]) : Except String PyVal)
      ≠ Except.ok PyVal.none := by
  refine ⟨rfl, ?_⟩
  intro h
  exact PyVal.noConfusion (Except.ok.inj h)

/-- Auxiliary for C4: when every attachment entry resolves to a drive-file
payload, the extractor loop returns exactly the mapped descriptors. -/
theorem extractGo_of_resolveAll : ∀ (xs ds : List PyVal),
    resolveAll xs = some ds → extractGo xs = Except.ok ds := by
  intro xs
  induction xs with
  | nil =>
    intro ds h
    simp only [resolveAll, Option.some.injEq] at h
    rw [← h]
    rfl
  | cons a t ih =>
    intro ds h
    simp only [resolveAll] at h
    cases hre : resolveEntry a with
    | none => rw [hre] at h; exact Option.noConfusion h
    | some inner =>
      rw [hre] at h
      cases hrt : resolveAll t with
      | none => rw [hrt] at h; exact Option.noConfusion h
      | some ds2 =>
        rw [hrt] at h
        have hds := Option.some.inj h
        cases a with
        | dict kvs =>
          simp only [resolveEntry] at hre
          simp only [extractGo]
          split at hre
          · rw [ih ds2 hrt, ← hds]
            split at hre <;> (have h3 := Option.some.inj hre; rw [h3]; rfl)
          · exact Option.noConfusion hre
        | none => exact Option.noConfusion hre
        | nan => exact Option.noConfusion hre
        | bool b => exact Option.noConfusion hre
        | int n => exact Option.noConfusion hre
        | str s => exact Option.noConfusion hre
        | dt i => exact Option.noConfusion hre
        | list ys => exact Option.noConfusion hre

/-- C4 (amended): for every attachment list whose entries all resolve to a
drive-file payload (direct, double-nested, or the empty payload for a
missing/falsy `driveFile` value), the extractor maps each entry — skipping
none — to its `{id, title, link, thumb}` descriptor, the empty result
becoming absent; in particular the spec's singleton input yields exactly its
descriptor.  Entries are never skipped: an unresolvable entry raises
instead (see the counterexample). -/
theorem C4_amended_extractor : ∀ (xs ds : List PyVal),
    resolveAll xs = some ds →
    extract_attachments (PyVal.list xs)
      = Except.ok (if ds.isEmpty then PyVal.none else PyVal.list ds) := by
  intro xs ds h
  simp only [extract_attachments]
  rw [extractGo_of_resolveAll xs ds h]
  rfl

/-- Witness for C4 (amended) at the spec's singleton example. -/
theorem C4_amended_extractor_witness :
    resolveAll [PyVal.dict [("driveFile", PyVal.dict [("id", PyVal.str "a1"),
        ("title", PyVal.str "t"), ("alternateLink", PyVal.str "l"),
        ("thumbnailUrl", PyVal.str "th")])]]
      = some [PyVal.dict [("id", PyVal.str "a1"), ("title", PyVal.str "t"),
          ("link", PyVal.str "l"), ("thumb", PyVal.str "th")]]
  ∧ extract_attachments (PyVal.list [PyVal.dict [("driveFile", PyVal.dict [("id", PyVal.str "a1"),
        ("title", PyVal.str "t"), ("alternateLink", PyVal.str "l"),
        ("thumbnailUrl", PyVal.str "th")])]])
      = Except.ok (PyVal.list [PyVal.dict [("id", PyVal.str "a1"), ("title", PyVal.str "t"),
          ("link", PyVal.str "l"), ("thumb", PyVal.str "th")]]) :=
  ⟨rfl, C4_amended_extractor
    [PyVal.dict [("driveFile", PyVal.dict [("id", PyVal.str "a1"),
        ("title", PyVal.str "t"), ("alternateLink", PyVal.str "l"),
        ("thumbnailUrl", PyVal.str "th")])]]
    [PyVal.dict [("id", PyVal.str "a1"), ("title", PyVal.str "t"),
        ("link", PyVal.str "l"), ("thumb", PyVal.str "th")]] rfl⟩

/-- C7 (counterexample): a CourseBlock that is actually missing its
`students` field is not treated as empty — `json_normalize`'s
`_pull_records` raises `KeyError`, failing the whole snapshot. -/
theorem C7_counterexample :
    exceptIsErr (flattenStudents
      [PyVal.dict [("course_info", PyVal.dict [("id", PyVal.str "c1")])]]) = true := rfl

/-- C7 (amended): a sub-collection field that is present with a null value
is treated as the empty list — zero records, no failure — but a block from
which the field is genuinely missing makes the flattener raise `KeyError`
for that collection. -/
theorem C7_amended_null_vs_missing :
    (∀ (ckvs : List (String × PyVal)) (v : PyVal),
      alookup ckvs "students" = some PyVal.none →
      pullField2 ckvs "course_info" "id" = Except.ok v →
      flattenStudents [PyVal.dict ckvs] = Except.ok [])
  ∧ (∀ ckvs : List (String × PyVal),
      alookup ckvs "students" = Option.none →
      exceptIsErr (flattenStudents [PyVal.dict ckvs]) = true) := by
  constructor
  · intro ckvs v h1 h2
    simp [flattenStudents, normalize1, recsOfCourse1, pullRecordsKV, mapE, h1, h2,
          renameDf, Except.map, bind, Except.bind]
  · intro ckvs h1
    simp [flattenStudents, normalize1, recsOfCourse1, pullRecordsKV, mapE, h1,
          Except.map, bind, Except.bind, exceptIsErr]

/-- Witness for C7 (amended) at concrete blocks. -/
theorem C7_amended_null_vs_missing_witness :
    flattenStudents [PyVal.dict [("students", PyVal.none),
      ("course_info", PyVal.dict [("id", PyVal.str "c1")])]] = Except.ok []
  ∧ exceptIsErr (flattenStudents [PyVal.dict [("teachers", PyVal.list []),
      ("course_info", PyVal.dict [("id", PyVal.str "c1")])]]) = true :=
  ⟨C7_amended_null_vs_missing.1 _ (PyVal.str "c1") rfl rfl,
   C7_amended_null_vs_missing.2 _ rfl⟩

/-- C10: a bare structured dict carrying `year`/`month`/`day` (no `dueDate`
wrapper) is accepted and yields that date at 00:00 UTC; the hour/minute
parts are read only from a `dueTime` key of the wrapper dict, so when the
dict has no `dueTime` key, `hours`/`minutes` entries placed in the bare dict
itself are ignored and the time parts are always 0. -/
theorem C10_bare_struct_dict :
    ∀ (tzLocal : Int) (kvs : List (String × PyVal)) (y mo d : Int),
    alookup kvs "dueDate" = Option.none →
    alookup kvs "dueTime" = Option.none →
    alookup kvs "year" = some (PyVal.int y) →
    alookup kvs "month" = some (PyVal.int mo) →
    alookup kvs "day" = some (PyVal.int d) →
    1 ≤ y → y ≤ 9999 → 1 ≤ mo → mo ≤ 12 → 1 ≤ d → d ≤ daysInMonth y mo →
    to_dt tzLocal (PyVal.dict kvs) = Except.ok (some (utcInstant y mo d 0 0 0 0)) := by
  intro tzLocal kvs y mo d hdd hdt hy hmo hd hy1 hy2 hm1 hm2 hd1 hd2
  simp only [to_dt, hdd, hdt, Option.getD_none, hasKey, hy, hmo, hd, Option.isSome_some,
             Bool.and_self, if_true]
  simp only [alookup, Option.getD_none, Option.getD_some, pyInt, bind, Except.bind]
  simp only [mkDatetime]
  rw [if_pos ⟨hy1, hy2, hm1, hm2, hd1, hd2, by omega, by omega, by omega, by omega⟩]
  rfl

/-- Witness for C10: a bare `{year, month, day}` dict with stray `hours` and
`minutes` entries still maps to 00:00 UTC of that date. -/
theorem C10_bare_struct_dict_witness :
    to_dt 0 (PyVal.dict [("year", PyVal.int 2025), ("month", PyVal.int 9),
        ("day", PyVal.int 1), ("hours", PyVal.int 14), ("minutes", PyVal.int 30)])
      = Except.ok (some (utcInstant 2025 9 1 0 0 0 0)) :=
  C10_bare_struct_dict 0 _ 2025 9 1 rfl rfl rfl rfl rfl (by decide) (by decide)
    (by decide) (by decide) (by decide) (by decide)
